import Mathlib

/-!
Verification of the streak / rest-day / deadline engine of the
stepping-stones goal tracker (`src/app.py`, `src/models.py`).

Shallow embedding conventions:
* `Date` mirrors Python `datetime.date` as a proleptic-Gregorian
  year/month/day record; comparison is lexicographic, as in Python.
* The streak engine (`update_streak_status`) only ever subtracts dates,
  steps back one day, compares dates for equality and takes weekdays, so
  there a date is embedded as its day number (days since 1970-01-01, a
  Thursday), exactly the image of Python dates under `toordinal` shifted
  by a constant; `timedelta(days = 1)` becomes `1`.
* SQLAlchemy queries are embedded as reads over explicit lists: the
  user's `CustomRestDay` rows become the list of their dates, and the
  `StepLog` rows for the user become a list of `(date, step_id)` pairs.
* `flash` calls and `db.session.commit` are presentation / persistence
  side effects with no effect on the computed state; they are dropped.
-/

set_option maxRecDepth 4000

namespace SteppingStones

/-- Proleptic Gregorian calendar date, mirroring Python `datetime.date`
(Python additionally bounds the year to 1..9999; the bound is never
exercised by the code under study and is not modelled). -/
structure Date where
  year : Int
  month : Nat
  day : Nat
deriving Repr, DecidableEq

/-- Gregorian leap-year rule, as Python `calendar.isleap`. -/
def isLeap (y : Int) : Bool :=
  (y % 4 == 0 && y % 100 != 0) || y % 400 == 0

/-- Number of days in a month, as Python `calendar.monthrange(y, m)[1]`. -/
def monthLength (y : Int) (m : Nat) : Nat :=
  if m = 2 then (if isLeap y then 29 else 28)
  else if m = 4 ∨ m = 6 ∨ m = 9 ∨ m = 11 then 30
  else 31

/-- The year/month/day triples that denote actual calendar dates — the
triples for which Python's `date` constructor does not raise `ValueError`. -/
def Date.valid (dt : Date) : Bool :=
  decide (1 ≤ dt.month ∧ dt.month ≤ 12 ∧ 1 ≤ dt.day ∧
    dt.day ≤ monthLength dt.year dt.month)

/-- Python's `<=` on dates: lexicographic on (year, month, day). -/
def dateLe (a b : Date) : Bool :=
  decide (a.year < b.year ∨ (a.year = b.year ∧
    (a.month < b.month ∨ (a.month = b.month ∧ a.day ≤ b.day))))

/-- The calendar successor of a date. -/
def nextDay (dt : Date) : Date :=
  if dt.day < monthLength dt.year dt.month then ⟨dt.year, dt.month, dt.day + 1⟩
  else if dt.month < 12 then ⟨dt.year, dt.month + 1, 1⟩
  else ⟨dt.year + 1, 1, 1⟩

/-- Python `d + timedelta(days = n)` for `n ≥ 0`: advance the calendar
`n` times. -/
def addDays (dt : Date) (n : Nat) : Date :=
  nextDay^[n] dt

/-- Day number of a date, measured in days since 1970-01-01 (the shifted
image of Python `date.toordinal`); standard civil-from-days arithmetic. -/
def daysFromCivil (dt : Date) : Int :=
  let y : Int := if dt.month ≤ 2 then dt.year - 1 else dt.year
  let m : Int := (dt.month : Int)
  let d : Int := (dt.day : Int)
  let era : Int := y.fdiv 400
  let yoe : Int := y - era * 400
  let doy : Int := (153 * (if m > 2 then m - 3 else m + 9) + 2).fdiv 5 + d - 1
  let doe : Int := yoe * 365 + yoe.fdiv 4 - yoe.fdiv 100 + doy
  era * 146097 + doe - 719468

/-- Python `date.weekday()`: Monday = 0 .. Sunday = 6
(1970-01-01 was a Thursday, weekday 3). -/
def Date.weekday (dt : Date) : Nat :=
  ((daysFromCivil dt + 3) % 7).toNat

/-- Embedding of `calculate_deadline` (src/app.py:73-93), with the
module-global `date.today()` made an explicit `today` parameter and the
two form fields as `Option String` (`none` = absent field).  Python's
`not mode` is true exactly for an absent or empty mode. -/
def calculate_deadline (timeframe mode : Option String) (today : Date) : Date :=
  if mode = none ∨ mode = some "" ∨ mode = some "custom" then
    addDays today 7
  else if mode = some "rolling" then
    if timeframe = some "Weekly" then addDays today 7
    else if timeframe = some "Monthly" then addDays today 30
    else if timeframe = some "Yearly" then addDays today 365
    else addDays today 7
  else if mode = some "calendar" then
    if timeframe = some "Weekly" then addDays today ((6 - today.weekday + 7) % 7)
    else if timeframe = some "Monthly" then
      ⟨today.year, today.month, monthLength today.year today.month⟩
    else if timeframe = some "Yearly" then ⟨today.year, 12, 31⟩
    else addDays today 7
  else addDays today 7

/-- The six (timeframe, mode) pairs `calculate_deadline` recognizes with
dedicated behaviour; every other pair takes a fallback branch. -/
def recognized_combo (timeframe mode : Option String) : Prop :=
  (mode = some "rolling" ∨ mode = some "calendar") ∧
  (timeframe = some "Weekly" ∨ timeframe = some "Monthly" ∨ timeframe = some "Yearly")

/-- Embedding of `get_next_birthday` (src/app.py:31-47), with
`date.today()` an explicit parameter.  The `try/except ValueError`
around Python's `date` constructor becomes a validity test: the invalid
triple falls back to Feb 28 of the same year, as in the source. -/
def get_next_birthday (dob : Date) (today : Date) : Date :=
  let this_year_bday :=
    if (Date.mk today.year dob.month dob.day).valid then
      Date.mk today.year dob.month dob.day
    else Date.mk today.year 2 28
  if dateLe today this_year_bday then this_year_bday
  else
    if (Date.mk (today.year + 1) dob.month dob.day).valid then
      Date.mk (today.year + 1) dob.month dob.day
    else Date.mk (today.year + 1) 2 28

/-- Spec-side predicate: `dt` carries the month/day `(m, d)`, with a
Feb 29 birthday collapsing to Feb 28 in a non-leap target year. -/
def carries_month_day (m d : Nat) (dt : Date) : Prop :=
  (dt.month = m ∧ dt.day = d) ∨
  (m = 2 ∧ d = 29 ∧ isLeap dt.year = false ∧ dt.month = 2 ∧ dt.day = 28)

/-- The one try/except block of `get_next_birthday`, as a function of the
target year: the birthday placed in year `yr`, falling back to Feb 28 of
`yr` when the triple is not a date. -/
def birthday_in_year (dob : Date) (yr : Int) : Date :=
  if (Date.mk yr dob.month dob.day).valid then Date.mk yr dob.month dob.day
  else Date.mk yr 2 28

/-! ## Streak engine -/

/-- Python `date.weekday()` on a day number (days since 1970-01-01,
a Thursday): Monday = 0 .. Sunday = 6. -/
def pyWeekday (d : Int) : Nat :=
  ((d + 3) % 7).toNat

/-- The streak-relevant columns of the `User` row (src/models.py:24-31).
`rest_days` keeps its stored form: a comma-separated string of weekday
numbers such as `"5,6"`. -/
structure UserState where
  daily_target : Nat
  current_streak : Nat
  last_streak_date : Option Int
  streak_freezes : Nat
  rest_days : String
deriving Repr, DecidableEq

/-- `User` row defaults at registration (src/models.py:24-31). -/
def registration_defaults : UserState :=
  { daily_target := 2, current_streak := 0, last_streak_date := none,
    streak_freezes := 3, rest_days := "" }

/-- Splitting a character list at every separator, keeping empty groups:
the semantics of Python `str.split(sep)` for a one-character `sep`. -/
def splitChars (sep : Char) : List Char → List (List Char)
  | [] => [[]]
  | c :: cs =>
    if c = sep then [] :: splitChars sep cs
    else
      match splitChars sep cs with
      | [] => [[c]]
      | g :: gs => (c :: g) :: gs

/-- Python `s.split(',')` (e.g. `"5,6" ↦ ["5", "6"]`, `"" ↦ [""]`). -/
def split_commas (s : String) : List String :=
  (splitChars ',' s.data).map fun cs => String.mk cs

/-- The weekly rest-day test of src/app.py:110-112:
`user.rest_days and str(yesterday.weekday()) in user.rest_days.split(',')`
(an empty `rest_days` string is falsy, so it never matches). -/
def is_weekly_rest (restDays : String) (d : Int) : Bool :=
  restDays != "" && (split_commas restDays).contains (toString (pyWeekday d))

/-- Today's progress count (src/app.py:131): the number of `step_id`
groups among the user's `StepLog` rows dated `today`; a log row is
embedded as its `(date, step_id)` pair. -/
def todays_progress (logs : List (Int × Nat)) (today : Int) : Nat :=
  ((logs.filter fun l => l.1 == today).map Prod.snd).dedup.length

/-- The miss-penalty phase of `update_streak_status` (src/app.py:102-128):
on a gap of more than one day, a planned rest day yesterday shields the
streak, else a freeze is consumed and `last_streak_date` backdated to
yesterday, else the streak resets to 0.  `customRestDays` is the list of
dates of the user's `CustomRestDay` rows. -/
def apply_missed_day_rules (user : UserState) (customRestDays : List Int)
    (today : Int) : UserState :=
  match user.last_streak_date with
  | none => user
  | some lsd =>
    if today - lsd > 1 then
      let yesterday := today - 1
      if is_weekly_rest user.rest_days yesterday || customRestDays.contains yesterday then
        user
      else if user.streak_freezes > 0 then
        { user with streak_freezes := user.streak_freezes - 1,
                    last_streak_date := some (today - 1) }
      else
        { user with current_streak := 0 }
    else user

/-- The progress-credit phase of `update_streak_status`
(src/app.py:133-137): meeting the daily target credits today once. -/
def credit_today (user : UserState) (todays_count : Nat) (today : Int) : UserState :=
  if todays_count ≥ user.daily_target then
    if user.last_streak_date ≠ some today then
      { user with current_streak := user.current_streak + 1,
                  last_streak_date := some today }
    else user
  else user

/-- Embedding of `update_streak_status` (src/app.py:95-140): the penalty
phase, then the progress query, then the credit phase; returns the
updated user state together with today's progress count (the function's
return value). -/
def update_streak_status (user : UserState) (customRestDays : List Int)
    (logs : List (Int × Nat)) (today : Int) : UserState × Nat :=
  let afterPenalty := apply_missed_day_rules user customRestDays today
  let todays_count := todays_progress logs today
  (credit_today afterPenalty todays_count today, todays_count)

/-- The documented streak-state invariant: a user with no credited day
has a zero streak. -/
def StreakInv (u : UserState) : Prop :=
  u.last_streak_date = none → u.current_streak = 0

/-! ## Helper lemmas about the two phases of the streak engine -/

theorem credit_today_freezes (u : UserState) (c : Nat) (t : Int) :
    (credit_today u c t).streak_freezes = u.streak_freezes := by
  unfold credit_today; split_ifs <;> rfl

theorem credit_today_target (u : UserState) (c : Nat) (t : Int) :
    (credit_today u c t).daily_target = u.daily_target := by
  unfold credit_today; split_ifs <;> rfl

theorem credit_today_streak (u : UserState) (c : Nat) (t : Int) :
    (credit_today u c t).current_streak = u.current_streak ∨
    (credit_today u c t).current_streak = u.current_streak + 1 := by
  unfold credit_today; split_ifs <;> simp

theorem credit_today_noop (u : UserState) (c : Nat) (t : Int)
    (h : ¬(c ≥ u.daily_target ∧ u.last_streak_date ≠ some t)) :
    credit_today u c t = u := by
  unfold credit_today
  split_ifs with h1 h2
  · exact absurd ⟨h1, h2⟩ h
  · rfl
  · rfl

theorem credit_today_fires (u : UserState) (c : Nat) (t : Int)
    (h1 : c ≥ u.daily_target) (h2 : u.last_streak_date ≠ some t) :
    credit_today u c t =
      { u with current_streak := u.current_streak + 1, last_streak_date := some t } := by
  unfold credit_today
  rw [if_pos h1, if_pos h2]

theorem amr_none (u : UserState) (crd : List Int) (t : Int)
    (hu : u.last_streak_date = none) :
    apply_missed_day_rules u crd t = u := by
  unfold apply_missed_day_rules
  rw [hu]

theorem amr_small (u : UserState) (crd : List Int) (t : Int) (d : Int)
    (hu : u.last_streak_date = some d) (hd : ¬ t - d > 1) :
    apply_missed_day_rules u crd t = u := by
  unfold apply_missed_day_rules
  rw [hu]
  exact if_neg hd

theorem amr_shield (u : UserState) (crd : List Int) (t : Int) (d : Int)
    (hu : u.last_streak_date = some d) (hd : t - d > 1)
    (hrest : (is_weekly_rest u.rest_days (t - 1) || crd.contains (t - 1)) = true) :
    apply_missed_day_rules u crd t = u := by
  unfold apply_missed_day_rules
  rw [hu]
  simp only [if_pos hd, hrest, if_pos]

theorem amr_freeze (u : UserState) (crd : List Int) (t : Int) (d : Int)
    (hu : u.last_streak_date = some d) (hd : t - d > 1)
    (hrest : (is_weekly_rest u.rest_days (t - 1) || crd.contains (t - 1)) = false)
    (hf : u.streak_freezes > 0) :
    apply_missed_day_rules u crd t =
      { u with streak_freezes := u.streak_freezes - 1,
               last_streak_date := some (t - 1) } := by
  unfold apply_missed_day_rules
  rw [hu]
  simp only [if_pos hd, hrest, Bool.false_eq_true, if_false, if_pos hf]

theorem amr_reset (u : UserState) (crd : List Int) (t : Int) (d : Int)
    (hu : u.last_streak_date = some d) (hd : t - d > 1)
    (hrest : (is_weekly_rest u.rest_days (t - 1) || crd.contains (t - 1)) = false)
    (hf : ¬ u.streak_freezes > 0) :
    apply_missed_day_rules u crd t = { u with current_streak := 0 } := by
  unfold apply_missed_day_rules
  rw [hu]
  simp only [if_pos hd, hrest, Bool.false_eq_true, if_false, if_neg hf]

theorem amr_idem (u : UserState) (crd : List Int) (t : Int) :
    apply_missed_day_rules (apply_missed_day_rules u crd t) crd t =
      apply_missed_day_rules u crd t := by
  rcases hu : u.last_streak_date with _ | lsd
  · rw [amr_none u crd t hu, amr_none u crd t hu]
  · by_cases hgap : t - lsd > 1
    · by_cases hrest : (is_weekly_rest u.rest_days (t - 1) || crd.contains (t - 1)) = true
      · rw [amr_shield u crd t lsd hu hgap hrest, amr_shield u crd t lsd hu hgap hrest]
      · rw [Bool.not_eq_true] at hrest
        by_cases hf : u.streak_freezes > 0
        · rw [amr_freeze u crd t lsd hu hgap hrest hf]
          exact amr_small _ crd t (t - 1) rfl (by omega)
        · rw [amr_reset u crd t lsd hu hgap hrest hf]
          exact amr_reset _ crd t lsd hu hgap hrest hf
    · rw [amr_small u crd t lsd hu hgap, amr_small u crd t lsd hu hgap]

theorem amr_streak (u : UserState) (crd : List Int) (t : Int) :
    (apply_missed_day_rules u crd t).current_streak = u.current_streak ∨
    (apply_missed_day_rules u crd t).current_streak = 0 := by
  rcases hu : u.last_streak_date with _ | lsd
  · rw [amr_none u crd t hu]; left; rfl
  · by_cases hgap : t - lsd > 1
    · by_cases hrest : (is_weekly_rest u.rest_days (t - 1) || crd.contains (t - 1)) = true
      · rw [amr_shield u crd t lsd hu hgap hrest]; left; rfl
      · rw [Bool.not_eq_true] at hrest
        by_cases hf : u.streak_freezes > 0
        · rw [amr_freeze u crd t lsd hu hgap hrest hf]; left; rfl
        · rw [amr_reset u crd t lsd hu hgap hrest hf]; right; rfl
    · rw [amr_small u crd t lsd hu hgap]; left; rfl

theorem credit_today_lsd_none (u : UserState) (c : Nat) (t : Int)
    (h : (credit_today u c t).last_streak_date = none) :
    credit_today u c t = u := by
  by_cases h1 : c ≥ u.daily_target ∧ u.last_streak_date ≠ some t
  · rw [credit_today_fires _ _ _ h1.1 h1.2] at h
    simp at h
  · exact credit_today_noop _ _ _ h1

theorem amr_lsd_none (u : UserState) (crd : List Int) (t : Int)
    (h : (apply_missed_day_rules u crd t).last_streak_date = none) :
    apply_missed_day_rules u crd t = u := by
  rcases hu : u.last_streak_date with _ | lsd
  · exact amr_none u crd t hu
  · by_cases hgap : t - lsd > 1
    · by_cases hrest : (is_weekly_rest u.rest_days (t - 1) || crd.contains (t - 1)) = true
      · exact amr_shield u crd t lsd hu hgap hrest
      · rw [Bool.not_eq_true] at hrest
        by_cases hf : u.streak_freezes > 0
        · rw [amr_freeze u crd t lsd hu hgap hrest hf] at h
          exact absurd h (by simp)
        · rw [amr_reset u crd t lsd hu hgap hrest hf] at h
          simp [hu] at h
    · exact amr_small u crd t lsd hu hgap

/-! ## Helper lemmas about the calendar -/

theorem dateLe_eq_true_iff (a b : Date) :
    dateLe a b = true ↔
      (a.year < b.year ∨ (a.year = b.year ∧
        (a.month < b.month ∨ (a.month = b.month ∧ a.day ≤ b.day)))) := by
  simp [dateLe]

theorem dateLe_refl (a : Date) : dateLe a a = true := by
  rw [dateLe_eq_true_iff]; omega

theorem dateLe_trans (a b c : Date) (h1 : dateLe a b = true) (h2 : dateLe b c = true) :
    dateLe a c = true := by
  rw [dateLe_eq_true_iff] at *
  omega

theorem monthLength_pos (y : Int) (m : Nat) : 1 ≤ monthLength y m := by
  unfold monthLength
  split_ifs <;> omega

theorem monthLength_le (y : Int) (m : Nat) : monthLength y m ≤ 31 := by
  unfold monthLength
  split_ifs <;> omega

theorem monthLength_ne_two (y y' : Int) (m : Nat) (hm : m ≠ 2) :
    monthLength y m = monthLength y' m := by
  unfold monthLength
  rw [if_neg hm, if_neg hm]

theorem date_valid_iff (dt : Date) :
    dt.valid = true ↔
      (1 ≤ dt.month ∧ dt.month ≤ 12 ∧ 1 ≤ dt.day ∧
        dt.day ≤ monthLength dt.year dt.month) := by
  simp [Date.valid]

theorem dateLe_nextDay (dt : Date) : dateLe dt (nextDay dt) = true := by
  unfold nextDay
  split_ifs <;> rw [dateLe_eq_true_iff] <;> simp

theorem dateLe_addDays (dt : Date) (n : Nat) : dateLe dt (addDays dt n) = true := by
  induction n generalizing dt with
  | zero => exact dateLe_refl dt
  | succ n ih =>
    rw [addDays, Function.iterate_succ_apply]
    exact dateLe_trans _ _ _ (dateLe_nextDay dt) (ih (nextDay dt))

theorem monthLength_feb (y : Int) : monthLength y 2 = if isLeap y then 29 else 28 :=
  rfl

theorem monthLength_feb_true (y : Int) (h : isLeap y = true) : monthLength y 2 = 29 := by
  rw [monthLength_feb, h]; rfl

theorem monthLength_feb_false (y : Int) (h : isLeap y = false) : monthLength y 2 = 28 := by
  rw [monthLength_feb, h]; rfl

theorem monthLength_feb_cases (y : Int) : monthLength y 2 = 28 ∨ monthLength y 2 = 29 := by
  rw [monthLength_feb]
  split_ifs <;> simp

theorem valid_feb28 (yr : Int) : (Date.mk yr 2 28).valid = true := by
  rw [date_valid_iff]
  refine ⟨by show (1 : Nat) ≤ 2; decide, by show (2 : Nat) ≤ 12; decide,
    by show (1 : Nat) ≤ 28; decide, ?_⟩
  show (28 : Nat) ≤ monthLength yr 2
  rcases monthLength_feb_cases yr with h | h <;> omega

theorem invalid_feb29 (yr : Int) (h : isLeap yr = false) :
    (Date.mk yr 2 29).valid = false := by
  cases hvb : (Date.mk yr 2 29).valid with
  | false => rfl
  | true =>
    exfalso
    rw [date_valid_iff] at hvb
    have h29 : (29 : Nat) ≤ monthLength yr 2 := hvb.2.2.2
    rw [monthLength_feb_false yr h] at h29
    omega

theorem dob_valid_cases (dob : Date) (hdob : dob.valid = true) (yr : Int) :
    (Date.mk yr dob.month dob.day).valid = true ∨
    (dob.month = 2 ∧ dob.day = 29 ∧ isLeap yr = false) := by
  rw [date_valid_iff] at hdob
  obtain ⟨h1, h2, h3, h4⟩ := hdob
  by_cases hm : dob.month = 2
  · rw [hm] at h4
    by_cases hl : isLeap yr = true
    · left
      rw [date_valid_iff]
      refine ⟨h1, h2, h3, ?_⟩
      show dob.day ≤ monthLength yr dob.month
      rw [hm, monthLength_feb_true yr hl]
      rcases monthLength_feb_cases dob.year with hc | hc <;> omega
    · rw [Bool.not_eq_true] at hl
      by_cases hd29 : dob.day = 29
      · right; exact ⟨hm, hd29, hl⟩
      · left
        rw [date_valid_iff]
        refine ⟨h1, h2, h3, ?_⟩
        show dob.day ≤ monthLength yr dob.month
        rw [hm, monthLength_feb_false yr hl]
        rcases monthLength_feb_cases dob.year with hc | hc <;> omega
  · left
    rw [date_valid_iff]
    refine ⟨h1, h2, h3, ?_⟩
    show dob.day ≤ monthLength yr dob.month
    rw [monthLength_ne_two yr dob.year dob.month hm]
    exact h4

theorem biy_year (dob : Date) (yr : Int) : (birthday_in_year dob yr).year = yr := by
  unfold birthday_in_year
  split_ifs <;> rfl

theorem biy_valid (dob : Date) (yr : Int) :
    (birthday_in_year dob yr).valid = true := by
  unfold birthday_in_year
  split_ifs with hv
  · exact hv
  · exact valid_feb28 yr

theorem biy_carries (dob : Date) (hdob : dob.valid = true) (yr : Int) :
    carries_month_day dob.month dob.day (birthday_in_year dob yr) := by
  unfold birthday_in_year
  split_ifs with hv
  · exact Or.inl ⟨rfl, rfl⟩
  · rcases dob_valid_cases dob hdob yr with h | ⟨hm, hd, hl⟩
    · exact absurd h hv
    · exact Or.inr ⟨hm, hd, hl, rfl, rfl⟩

theorem carries_unique (dob : Date) (yr : Int) (dt : Date)
    (hv : dt.valid = true) (hy : dt.year = yr)
    (hc : carries_month_day dob.month dob.day dt) :
    dt = birthday_in_year dob yr := by
  rcases hc with ⟨hm, hd⟩ | ⟨hm, hd, hl, hm2, hd28⟩
  · have hdt : dt = Date.mk yr dob.month dob.day := by
      cases dt
      simp_all
    unfold birthday_in_year
    rw [if_pos (by rw [hdt] at hv; exact hv)]
    exact hdt
  · have hdt : dt = Date.mk yr 2 28 := by
      cases dt
      simp_all
    unfold birthday_in_year
    rw [if_neg]
    · exact hdt
    · rw [hm, hd]
      rw [invalid_feb29 yr (hy ▸ hl)]
      exact Bool.false_ne_true

theorem gnb_eq (dob today : Date) :
    get_next_birthday dob today =
      if dateLe today (birthday_in_year dob today.year) then
        birthday_in_year dob today.year
      else birthday_in_year dob (today.year + 1) :=
  rfl

/-! ## Claims about the streak engine -/

/-- C1 counterexample: in the claimed configuration (non-null
`last_streak_date`, gap of 3 > 1, yesterday neither a weekly nor a
custom rest day, 2 freezes left) but with today's target already met
(2 distinct step logs ≥ daily target 2), the call consumes the freeze
and then also credits today: `last_streak_date` ends as `today`, not
`today - 1`, and `current_streak` grows from 5 to 6. -/
theorem C1_counterexample :
    (⟨2, 5, some 7, 2, ""⟩ : UserState).last_streak_date = some 7 ∧
    (10 : Int) - 7 > 1 ∧
    is_weekly_rest (⟨2, 5, some 7, 2, ""⟩ : UserState).rest_days (10 - 1) = false ∧
    ([] : List Int).contains ((10 : Int) - 1) = false ∧
    (⟨2, 5, some 7, 2, ""⟩ : UserState).streak_freezes > 0 ∧
    ¬((update_streak_status ⟨2, 5, some 7, 2, ""⟩ [] [(10, 1), (10, 2)] 10).1.last_streak_date
        = some (10 - 1) ∧
      (update_streak_status ⟨2, 5, some 7, 2, ""⟩ [] [(10, 1), (10, 2)] 10).1.current_streak
        = (⟨2, 5, some 7, 2, ""⟩ : UserState).current_streak) := by
  decide

/-- C1 (amended): with a non-null `last_streak_date`, a gap greater
than 1, yesterday neither a weekly nor a custom rest day, and at least
one freeze, one call decreases `streak_freezes` by exactly 1 regardless
of the gap size; and provided today's progress count is below the daily
target, it also sets `last_streak_date` to `today - 1` and leaves
`current_streak` unchanged (when the target is met, the same call goes
on to credit today, moving `last_streak_date` to `today` and
incrementing the streak). -/
theorem C1_freeze_consumption (u : UserState) (crd : List Int)
    (logs : List (Int × Nat)) (today d : Int)
    (hl : u.last_streak_date = some d) (hgap : today - d > 1)
    (hw : is_weekly_rest u.rest_days (today - 1) = false)
    (hc : crd.contains (today - 1) = false)
    (hf : u.streak_freezes > 0) :
    (update_streak_status u crd logs today).1.streak_freezes = u.streak_freezes - 1 ∧
    (todays_progress logs today < u.daily_target →
      (update_streak_status u crd logs today).1.last_streak_date = some (today - 1) ∧
      (update_streak_status u crd logs today).1.current_streak = u.current_streak) := by
  have hrest : (is_weekly_rest u.rest_days (today - 1) || crd.contains (today - 1)) = false := by
    rw [hw, hc]; rfl
  have hpen := amr_freeze u crd today d hl hgap hrest hf
  simp only [update_streak_status, hpen]
  constructor
  · rw [credit_today_freezes]
  · intro hlt
    rw [credit_today_noop _ _ _ (by rintro ⟨h1, _⟩; simp at h1; omega)]
    exact ⟨rfl, rfl⟩

/-- C1 witness: daily target 2, streak 5, `last_streak_date = today - 3`,
2 freezes, empty rest-day configuration, no logs today: the call leaves
freezes at 1, backdates `last_streak_date` to `today - 1 = 9` and keeps
the streak at 5. -/
theorem C1_freeze_consumption_witness :
    (10 : Int) - 7 > 1 ∧
    is_weekly_rest "" ((10 : Int) - 1) = false ∧
    ([] : List Int).contains ((10 : Int) - 1) = false ∧
    todays_progress [] 10 < 2 ∧
    ((update_streak_status ⟨2, 5, some 7, 2, ""⟩ [] [] 10).1.streak_freezes = 2 - 1 ∧
     (update_streak_status ⟨2, 5, some 7, 2, ""⟩ [] [] 10).1.last_streak_date
       = some ((10 : Int) - 1) ∧
     (update_streak_status ⟨2, 5, some 7, 2, ""⟩ [] [] 10).1.current_streak = 5) := by
  have h := C1_freeze_consumption ⟨2, 5, some 7, 2, ""⟩ [] [] 10 7 rfl (by decide)
    (by decide) (by decide) (by decide)
  exact ⟨by decide, by decide, by decide, by decide, h.1, (h.2 (by decide)).1, (h.2 (by decide)).2⟩

/-- C2: running `update_streak_status` a second time on the same day,
with the same activity log and rest-day configuration, changes nothing:
the state after the second call equals the state after the first call
(so in particular no freeze is consumed by the second call) and both
calls return the same progress count. -/
theorem C2_evaluate_idempotent (u : UserState) (crd : List Int)
    (logs : List (Int × Nat)) (today : Int) :
    update_streak_status (update_streak_status u crd logs today).1 crd logs today =
      update_streak_status u crd logs today := by
  simp only [update_streak_status]
  by_cases hfire : todays_progress logs today ≥
      (apply_missed_day_rules u crd today).daily_target ∧
      (apply_missed_day_rules u crd today).last_streak_date ≠ some today
  · rw [credit_today_fires _ _ _ hfire.1 hfire.2]
    rw [amr_small _ crd today today rfl (by omega)]
    rw [credit_today_noop _ _ _ (by rintro ⟨_, h2⟩; exact h2 rfl)]
  · rw [credit_today_noop _ _ _ hfire]
    rw [amr_idem]
    rw [credit_today_noop _ _ _ hfire]

/-- C3: when the gap since the last credited day exceeds one day but
yesterday was a weekly or a custom rest day, the penalty phase is the
identity — `streak_freezes`, `current_streak` and `last_streak_date`
are untouched by it — and the whole call consumes no freeze. -/
theorem C3_rest_day_shield (u : UserState) (crd : List Int)
    (logs : List (Int × Nat)) (today d : Int)
    (hl : u.last_streak_date = some d) (hgap : today - d > 1)
    (hrest : is_weekly_rest u.rest_days (today - 1) = true ∨
      crd.contains (today - 1) = true) :
    apply_missed_day_rules u crd today = u ∧
    (update_streak_status u crd logs today).1.streak_freezes = u.streak_freezes := by
  have hor : (is_weekly_rest u.rest_days (today - 1) || crd.contains (today - 1)) = true := by
    rcases hrest with h | h
    · rw [h, Bool.true_or]
    · rw [h, Bool.or_true]
  have hpen := amr_shield u crd today d hl hgap hor
  refine ⟨hpen, ?_⟩
  simp only [update_streak_status, hpen]
  exact credit_today_freezes _ _ _

/-- C3 witness: `last_streak_date = today - 3 = 7`, weekly rest days
"5,6", and `today - 1 = 9` falls on weekday 5 (a Saturday), so the
penalty phase changes nothing and the 2 freezes survive the call. -/
theorem C3_rest_day_shield_witness :
    (10 : Int) - 7 > 1 ∧
    is_weekly_rest "5,6" ((10 : Int) - 1) = true ∧
    (apply_missed_day_rules ⟨2, 5, some 7, 2, "5,6"⟩ [] 10 = ⟨2, 5, some 7, 2, "5,6"⟩ ∧
     (update_streak_status ⟨2, 5, some 7, 2, "5,6"⟩ [] [] 10).1.streak_freezes = 2) := by
  have h := C3_rest_day_shield ⟨2, 5, some 7, 2, "5,6"⟩ [] [] 10 7 rfl (by decide)
    (Or.inl (by decide))
  exact ⟨by decide, by decide, h.1, h.2⟩

/-- C7: the invariant "a null `last_streak_date` forces a zero streak"
holds for the registration defaults and is preserved by every call of
the streak engine. -/
theorem C7_streak_invariant :
    StreakInv registration_defaults ∧
    ∀ (u : UserState) (crd : List Int) (logs : List (Int × Nat)) (today : Int),
      StreakInv u → StreakInv (update_streak_status u crd logs today).1 := by
  constructor
  · intro _; rfl
  · intro u crd logs today hinv hnone
    simp only [update_streak_status] at hnone ⊢
    have h1 := credit_today_lsd_none _ _ _ hnone
    rw [h1] at hnone ⊢
    have h2 := amr_lsd_none _ _ _ hnone
    rw [h2] at hnone ⊢
    exact hinv hnone

/-- C7 witness: the invariant holds for the registration defaults and,
for a state satisfying it, still holds after a call on day 10 with no
logs. -/
theorem C7_streak_invariant_witness :
    StreakInv ⟨2, 0, none, 3, ""⟩ ∧
    StreakInv (update_streak_status ⟨2, 0, none, 3, ""⟩ [] [] 10).1 := by
  exact ⟨fun _ => rfl, C7_streak_invariant.2 ⟨2, 0, none, 3, ""⟩ [] [] 10 (fun _ => rfl)⟩

/-- C8 counterexample: with streak 5, no freezes, `last_streak_date =
today - 3`, no rest days, and today's target met, a single call resets
the streak to 0 and then credits today, ending at 1 — a nonzero value
smaller than the old streak, outside the claimed set {old, old + 1, 0}. -/
theorem C8_counterexample :
    (update_streak_status ⟨2, 5, some 7, 0, ""⟩ [] [(10, 1), (10, 2)] 10).1.current_streak = 1 ∧
    ¬((update_streak_status ⟨2, 5, some 7, 0, ""⟩ [] [(10, 1), (10, 2)] 10).1.current_streak
        = (⟨2, 5, some 7, 0, ""⟩ : UserState).current_streak ∨
      (update_streak_status ⟨2, 5, some 7, 0, ""⟩ [] [(10, 1), (10, 2)] 10).1.current_streak
        = (⟨2, 5, some 7, 0, ""⟩ : UserState).current_streak + 1 ∨
      (update_streak_status ⟨2, 5, some 7, 0, ""⟩ [] [(10, 1), (10, 2)] 10).1.current_streak
        = 0) := by
  decide

/-- C8 (amended): a single call of the streak engine ends with
`current_streak` equal to its old value, its old value plus 1, 0, or 1
— the value 1 arising when a hard reset is followed, in the same call,
by crediting today's met target. -/
theorem C8_streak_change_shape (u : UserState) (crd : List Int)
    (logs : List (Int × Nat)) (today : Int) :
    (update_streak_status u crd logs today).1.current_streak = u.current_streak ∨
    (update_streak_status u crd logs today).1.current_streak = u.current_streak + 1 ∨
    (update_streak_status u crd logs today).1.current_streak = 0 ∨
    (update_streak_status u crd logs today).1.current_streak = 1 := by
  simp only [update_streak_status]
  rcases credit_today_streak (apply_missed_day_rules u crd today)
      (todays_progress logs today) today with h | h <;>
    rcases amr_streak u crd today with h2 | h2 <;> rw [h, h2] <;> omega

/-- C9: with a null `last_streak_date`, or a gap of 0 (same day) or 1
(consecutive day), the penalty phase is the identity regardless of the
rest-day configuration — no freeze is consumed and no reset occurs —
and the call proceeds to the progress-credit step, which can only keep
or increment the streak. -/
theorem C9_small_gap_free (u : UserState) (crd : List Int)
    (logs : List (Int × Nat)) (today : Int)
    (h : u.last_streak_date = none ∨ u.last_streak_date = some today ∨
      u.last_streak_date = some (today - 1)) :
    apply_missed_day_rules u crd today = u ∧
    (update_streak_status u crd logs today).1.streak_freezes = u.streak_freezes ∧
    ((update_streak_status u crd logs today).1.current_streak = u.current_streak ∨
     (update_streak_status u crd logs today).1.current_streak = u.current_streak + 1) := by
  have hpen : apply_missed_day_rules u crd today = u := by
    rcases h with h | h | h
    · exact amr_none _ _ _ h
    · exact amr_small _ _ _ _ h (by omega)
    · exact amr_small _ _ _ _ h (by omega)
  refine ⟨hpen, ?_, ?_⟩
  · simp only [update_streak_status, hpen]; exact credit_today_freezes _ _ _
  · simp only [update_streak_status, hpen]; exact credit_today_streak _ _ _

/-- C9 witness: `last_streak_date = today - 1 = 9` with every weekday a
rest day and a custom rest day yesterday: the penalty phase changes
nothing, the freeze count stays 1, and the streak stays 3 (no log
today, target not met). -/
theorem C9_small_gap_free_witness :
    ((⟨2, 3, some 9, 1, "0,1,2,3,4,5,6"⟩ : UserState).last_streak_date = none ∨
     (⟨2, 3, some 9, 1, "0,1,2,3,4,5,6"⟩ : UserState).last_streak_date = some 10 ∨
     (⟨2, 3, some 9, 1, "0,1,2,3,4,5,6"⟩ : UserState).last_streak_date
       = some ((10 : Int) - 1)) ∧
    (apply_missed_day_rules ⟨2, 3, some 9, 1, "0,1,2,3,4,5,6"⟩ [9] 10
        = ⟨2, 3, some 9, 1, "0,1,2,3,4,5,6"⟩ ∧
     (update_streak_status ⟨2, 3, some 9, 1, "0,1,2,3,4,5,6"⟩ [9] [] 10).1.streak_freezes = 1 ∧
     ((update_streak_status ⟨2, 3, some 9, 1, "0,1,2,3,4,5,6"⟩ [9] [] 10).1.current_streak = 3 ∨
      (update_streak_status ⟨2, 3, some 9, 1, "0,1,2,3,4,5,6"⟩ [9] [] 10).1.current_streak
        = 3 + 1)) := by
  have h := C9_small_gap_free ⟨2, 3, some 9, 1, "0,1,2,3,4,5,6"⟩ [9] [] 10 (by decide)
  exact ⟨by decide, h.1, h.2.1, h.2.2⟩

/-! ## Claims about the deadline and birthday calculators -/

/-- C4: for every date, rolling mode maps Weekly/Monthly/Yearly to
today + 7/30/365 days, and calendar mode maps Weekly to
`today + ((6 - weekday(today) + 7) mod 7)` (so a Sunday, weekday 6,
maps to itself), Monthly to the last calendar day of today's month and
Yearly to December 31 of today's year; in particular
`compute('Monthly','rolling', 2024-02-15) = 2024-03-16` and
`compute('Monthly','calendar', 2024-02-15) = 2024-02-29`. -/
theorem C4_deadline_contract :
    (∀ today : Date,
      calculate_deadline (some "Weekly") (some "rolling") today = addDays today 7 ∧
      calculate_deadline (some "Monthly") (some "rolling") today = addDays today 30 ∧
      calculate_deadline (some "Yearly") (some "rolling") today = addDays today 365 ∧
      calculate_deadline (some "Weekly") (some "calendar") today
        = addDays today ((6 - today.weekday + 7) % 7) ∧
      calculate_deadline (some "Monthly") (some "calendar") today
        = ⟨today.year, today.month, monthLength today.year today.month⟩ ∧
      calculate_deadline (some "Yearly") (some "calendar") today
        = ⟨today.year, 12, 31⟩ ∧
      (today.weekday = 6 →
        calculate_deadline (some "Weekly") (some "calendar") today = today)) ∧
    calculate_deadline (some "Monthly") (some "rolling") ⟨2024, 2, 15⟩ = ⟨2024, 3, 16⟩ ∧
    calculate_deadline (some "Monthly") (some "calendar") ⟨2024, 2, 15⟩ = ⟨2024, 2, 29⟩ := by
  refine ⟨fun today => ⟨?_, ?_, ?_, ?_, ?_, ?_, fun h6 => ?_⟩, by decide, by decide⟩
  · simp [calculate_deadline]
  · simp [calculate_deadline]
  · simp [calculate_deadline]
  · simp [calculate_deadline]
  · simp [calculate_deadline]
  · simp [calculate_deadline]
  · simp [calculate_deadline, addDays, h6]

/-- C4 witness: 2024-02-18 is a Sunday (weekday 6) and the Weekly
calendar deadline maps it to itself. -/
theorem C4_deadline_contract_witness :
    (⟨2024, 2, 18⟩ : Date).weekday = 6 ∧
    calculate_deadline (some "Weekly") (some "calendar") ⟨2024, 2, 18⟩ = ⟨2024, 2, 18⟩ :=
  ⟨by decide, (C4_deadline_contract.1 ⟨2024, 2, 18⟩).2.2.2.2.2.2 (by decide)⟩

/-- C5: `calculate_deadline` is a total function of its embedded
inputs (the source has no raising path: every branch returns a date),
and every (timeframe, mode) pair outside the six recognized
combinations — a missing mode, an empty or `custom` or arbitrary mode
string, or an unrecognized timeframe under `rolling`/`calendar` —
yields the `today + 7 days` fallback. -/
theorem C5_fallback (timeframe mode : Option String) (today : Date)
    (h : ¬ recognized_combo timeframe mode) :
    calculate_deadline timeframe mode today = addDays today 7 := by
  unfold recognized_combo at h
  unfold calculate_deadline
  split_ifs with h1 h2 h3 h4 h5 h6 h7 h8 h9
  · rfl
  · rfl
  · exact (h ⟨Or.inl h2, Or.inr (Or.inl h4)⟩).elim
  · exact (h ⟨Or.inl h2, Or.inr (Or.inr h5)⟩).elim
  · rfl
  · exact (h ⟨Or.inr h6, Or.inl h7⟩).elim
  · exact (h ⟨Or.inr h6, Or.inr (Or.inl h8)⟩).elim
  · exact (h ⟨Or.inr h6, Or.inr (Or.inr h9)⟩).elim
  · rfl
  · rfl

/-- C5 witness: the unrecognized mode `'bogus'` with timeframe
`'Weekly'` falls back to today + 7 days. -/
theorem C5_fallback_witness :
    ¬ recognized_combo (some "Weekly") (some "bogus") ∧
    calculate_deadline (some "Weekly") (some "bogus") ⟨2024, 2, 15⟩
      = addDays ⟨2024, 2, 15⟩ 7 :=
  ⟨by unfold recognized_combo; decide,
   C5_fallback (some "Weekly") (some "bogus") ⟨2024, 2, 15⟩
     (by unfold recognized_combo; decide)⟩

/-- C6: for a valid date of birth, `get_next_birthday` returns a valid
date that is ≥ today, lies in today's year or the following year, and
carries the birth month/day — with a Feb 29 birthday collapsing to
Feb 28 when the chosen target year is not a leap year — and it is the
smallest such date. -/
theorem C6_next_birthday_minimal (dob today : Date) (hdob : dob.valid = true) :
    ((get_next_birthday dob today).valid = true ∧
     dateLe today (get_next_birthday dob today) = true ∧
     ((get_next_birthday dob today).year = today.year ∨
      (get_next_birthday dob today).year = today.year + 1) ∧
     carries_month_day dob.month dob.day (get_next_birthday dob today)) ∧
    (∀ dt : Date, dt.valid = true → dateLe today dt = true →
      (dt.year = today.year ∨ dt.year = today.year + 1) →
      carries_month_day dob.month dob.day dt →
      dateLe (get_next_birthday dob today) dt = true) := by
  rw [gnb_eq]
  by_cases hle : dateLe today (birthday_in_year dob today.year) = true
  · rw [if_pos hle]
    refine ⟨⟨biy_valid dob _, hle, Or.inl (biy_year dob _), biy_carries dob hdob _⟩, ?_⟩
    intro dt hv hge hy hc
    rcases hy with hy | hy
    · rw [carries_unique dob today.year dt hv hy hc]
      exact dateLe_refl _
    · rw [dateLe_eq_true_iff]
      left
      rw [biy_year, hy]
      omega
  · rw [if_neg hle]
    have hlt : dateLe today (birthday_in_year dob (today.year + 1)) = true := by
      rw [dateLe_eq_true_iff]
      left
      rw [biy_year]
      omega
    refine ⟨⟨biy_valid dob _, hlt, Or.inr (biy_year dob _), biy_carries dob hdob _⟩, ?_⟩
    intro dt hv hge hy hc
    rcases hy with hy | hy
    · exact absurd (carries_unique dob today.year dt hv hy hc ▸ hge) hle
    · rw [carries_unique dob (today.year + 1) dt hv hy hc]
      exact dateLe_refl _

/-- C6 witness: the spec's leap-birthday instance — a Feb 29 date of
birth evaluated on 2025-03-01 yields 2026-02-28, which is ≥ today and
carries the collapsed month/day. -/
theorem C6_next_birthday_minimal_witness :
    (⟨2000, 2, 29⟩ : Date).valid = true ∧
    get_next_birthday ⟨2000, 2, 29⟩ ⟨2025, 3, 1⟩ = ⟨2026, 2, 28⟩ ∧
    dateLe ⟨2025, 3, 1⟩ (get_next_birthday ⟨2000, 2, 29⟩ ⟨2025, 3, 1⟩) = true ∧
    carries_month_day 2 29 (get_next_birthday ⟨2000, 2, 29⟩ ⟨2025, 3, 1⟩) := by
  have h := C6_next_birthday_minimal ⟨2000, 2, 29⟩ ⟨2025, 3, 1⟩ (by decide)
  exact ⟨by decide, by decide, h.1.2.1, h.1.2.2.2⟩

/-- C10: for every timeframe and mode — recognized or not — and every
valid date, the deadline returned by `calculate_deadline` is ≥ today. -/
theorem C10_deadline_not_past (timeframe mode : Option String) (today : Date)
    (h : today.valid = true) :
    dateLe today (calculate_deadline timeframe mode today) = true := by
  rw [date_valid_iff] at h
  obtain ⟨h1, h2, h3, h4⟩ := h
  unfold calculate_deadline
  split_ifs
  any_goals exact dateLe_addDays today _
  · rw [dateLe_eq_true_iff]
    right
    exact ⟨rfl, Or.inr ⟨rfl, h4⟩⟩
  · rw [dateLe_eq_true_iff]
    by_cases hm : today.month = 12
    · right
      refine ⟨rfl, Or.inr ⟨hm, ?_⟩⟩
      show today.day ≤ 31
      rw [hm] at h4
      have h31 : monthLength today.year 12 = 31 := rfl
      omega
    · right
      refine ⟨rfl, Or.inl ?_⟩
      show today.month < 12
      omega

/-- C10 witness: on the valid date 2024-02-15, the Yearly calendar
deadline (2024-12-31) is not in the past. -/
theorem C10_deadline_not_past_witness :
    (⟨2024, 2, 15⟩ : Date).valid = true ∧
    dateLe ⟨2024, 2, 15⟩
      (calculate_deadline (some "Yearly") (some "calendar") ⟨2024, 2, 15⟩) = true :=
  ⟨by decide, C10_deadline_not_past (some "Yearly") (some "calendar") ⟨2024, 2, 15⟩ (by decide)⟩

end SteppingStones
